import Mathlib

/-!
Verification of the provider-abstraction and brute-force-retriever core of the
`prompt-demo` repository, shallowly embedded in Lean.

Sources embedded below:
* `5_langchain_rag_basic.py` / `7_langchain_rag_basic.py` — `SimpleVectorStore`,
  `SimpleRetriever` and the inline `cosine_similarity` (identical in both files);
* `prompts/llm_interface.py` — the abstract `LLMProvider` contract;
* `prompts/llm_providers.py` — `OllamaProvider`, `OpenAIProvider`, `GeminiProvider`;
* `prompts/llm_config.py` — the per-provider config records and `LLMConfig`.

Modelling conventions: Python floats are modelled by real numbers (the sources
only use `+`, `*`, `/` and `** 0.5` on non-negative arguments, i.e. `Real.sqrt`);
sampling parameters are modelled by rationals (only stored and compared, never
computed with); `Optional[T]` is `Option T`; the external LangChain chat-model
client owned by each adapter (`self._llm`) is abstracted as an explicit function
argument giving the client's response behaviour; `os.getenv` is abstracted as a
function `String → Option String`.
-/

namespace PromptDemo

/-! ## Brute-force retriever (`5_langchain_rag_basic.py`, `7_langchain_rag_basic.py`) -/

/-- Python `sum(a * b for a, b in zip(vec1, vec2))`. -/
def dot_product (vec1 vec2 : List ℝ) : ℝ :=
  ((vec1.zip vec2).map fun ab => ab.1 * ab.2).sum

/-- Python `sum(a * a for a in vec) ** 0.5` — the Euclidean norm used for `norm1`/`norm2`
in `cosine_similarity` (the exponand is a sum of squares, hence non-negative, so
Python `** 0.5` is the real square root). -/
noncomputable def pyNorm (vec : List ℝ) : ℝ :=
  Real.sqrt ((vec.map fun a => a * a).sum)

/-- The inline `cosine_similarity(vec1, vec2)` of `SimpleRetriever.invoke`:
`dot_product / (norm1 * norm2) if norm1 * norm2 > 0 else 0`. -/
noncomputable def cosine_similarity (vec1 vec2 : List ℝ) : ℝ :=
  let norm1 := pyNorm vec1
  let norm2 := pyNorm vec2
  if norm1 * norm2 > 0 then dot_product vec1 vec2 / (norm1 * norm2) else 0

/-- The embeddings model consumed by `SimpleVectorStore` / `SimpleRetriever`
(`embed_documents` for indexing, `embed_query` for queries). -/
structure EmbeddingsModel where
  embed_documents : List String → List (List ℝ)
  embed_query : String → List ℝ

/-- Class `SimpleVectorStore`: parallel lists of texts and their embeddings, plus the
embeddings model used to embed queries. -/
structure SimpleVectorStore where
  texts : List String
  embeddings_model : EmbeddingsModel
  embeddings : List (List ℝ)

/-- Method `SimpleVectorStore.__init__`: store the texts and the model and eagerly set
`self.embeddings = embeddings_model.embed_documents(texts)`. -/
def SimpleVectorStore.init (texts : List String) (embeddings_model : EmbeddingsModel) :
    SimpleVectorStore :=
  { texts := texts
    embeddings_model := embeddings_model
    embeddings := embeddings_model.embed_documents texts }

/-- Class `SimpleRetriever`: a (store, k) pair. -/
structure SimpleRetriever where
  store : SimpleVectorStore
  k : ℕ

/-- Method `SimpleVectorStore.as_retriever(k)`. -/
def SimpleVectorStore.as_retriever (self : SimpleVectorStore) (k : ℕ) : SimpleRetriever :=
  ⟨self, k⟩

/-- LangChain `Document(page_content=...)` as used by the retriever. -/
structure Document where
  page_content : String
deriving DecidableEq

/-- Method `SimpleRetriever.invoke(query)`: embed the query, score every stored
embedding with `cosine_similarity`, sort `enumerate(similarities)` descending by
score (Python `list.sort(key=..., reverse=True)` is a stable descending sort,
modelled by `mergeSort` with the reversed comparison), take the first `k`
indices, and return the corresponding stored texts as `Document`s. -/
noncomputable def SimpleRetriever.invoke (self : SimpleRetriever) (query : String) :
    List Document :=
  let query_embedding := self.store.embeddings_model.embed_query query
  let similarities := self.store.embeddings.map fun emb =>
    cosine_similarity query_embedding emb
  let indexed_sims := similarities.enum
  let sorted_sims := indexed_sims.mergeSort fun x y => decide (y.2 ≤ x.2)
  let top_indices := (sorted_sims.take self.k).map Prod.fst
  top_indices.map fun i => ⟨self.store.texts.getD i ""⟩

/-! ### Retriever lemmas -/

theorem sum_squares_nonneg (v : List ℝ) : 0 ≤ (v.map fun a => a * a).sum := by
  apply List.sum_nonneg
  intro x hx
  rcases List.mem_map.1 hx with ⟨a, _, rfl⟩
  exact mul_self_nonneg a

theorem pyNorm_nonneg (v : List ℝ) : 0 ≤ pyNorm v :=
  Real.sqrt_nonneg _

theorem sum_squares_pos (v : List ℝ) (h : ∃ x ∈ v, x ≠ 0) :
    0 < (v.map fun a => a * a).sum := by
  induction v with
  | nil => rcases h with ⟨x, hx, _⟩; cases hx
  | cons a rest ih =>
    rcases h with ⟨x, hx, hx0⟩
    rcases List.mem_cons.1 hx with rfl | hmem
    · have h1 : 0 < x * x := mul_self_pos.2 hx0
      have h2 : 0 ≤ (rest.map fun a => a * a).sum := sum_squares_nonneg rest
      simpa using add_pos_of_pos_of_nonneg h1 h2
    · have h1 : 0 < (rest.map fun a => a * a).sum := ih ⟨x, hmem, hx0⟩
      have h2 : 0 ≤ a * a := mul_self_nonneg a
      simpa using add_pos_of_nonneg_of_pos h2 h1

theorem dot_product_comm (v w : List ℝ) : dot_product v w = dot_product w v := by
  induction v generalizing w with
  | nil => cases w <;> simp [dot_product]
  | cons a rest ih =>
    cases w with
    | nil => simp [dot_product]
    | cons b ws =>
      have := ih ws
      simp only [dot_product, List.zip_cons_cons, List.map_cons, List.sum_cons] at this ⊢
      rw [mul_comm, this]

theorem dot_product_self (v : List ℝ) : dot_product v v = (v.map fun a => a * a).sum := by
  induction v with
  | nil => simp [dot_product]
  | cons a rest ih =>
    simp only [dot_product, List.zip_cons_cons, List.map_cons, List.sum_cons] at ih ⊢
    rw [ih]

/-- C3: `cosine_similarity` is total (it is a Lean function) and returns exactly
0 whenever either input vector has Euclidean norm 0, instead of dividing by
zero — the guard `if norm1 * norm2 > 0` sends every zero-norm case to the
`else 0` branch. -/
theorem cosine_similarity_zero_norm (vec1 vec2 : List ℝ)
    (h : pyNorm vec1 = 0 ∨ pyNorm vec2 = 0) :
    cosine_similarity vec1 vec2 = 0 := by
  rcases h with h | h <;> simp [cosine_similarity, h]

theorem cosine_similarity_zero_norm_witness :
    (pyNorm [0, 0] = 0 ∨ pyNorm ([3, 4] : List ℝ) = 0)
      ∧ cosine_similarity [0, 0] [3, 4] = 0 :=
  ⟨Or.inl (by simp [pyNorm]),
   cosine_similarity_zero_norm [0, 0] [3, 4] (Or.inl (by simp [pyNorm]))⟩

/-- C7: `cosine_similarity` is symmetric in its two arguments, and every vector
with some nonzero component has cosine similarity exactly 1 with itself (exact
real arithmetic). -/
theorem cosine_similarity_symm_and_self :
    (∀ a b : List ℝ, cosine_similarity a b = cosine_similarity b a)
    ∧ (∀ v : List ℝ, (∃ x ∈ v, x ≠ 0) → cosine_similarity v v = 1) := by
  constructor
  · intro a b
    simp only [cosine_similarity]
    rw [dot_product_comm, mul_comm (pyNorm a) (pyNorm b)]
  · intro v hv
    have hpos : 0 < (v.map fun a => a * a).sum := sum_squares_pos v hv
    have hnorm : pyNorm v * pyNorm v = (v.map fun a => a * a).sum :=
      Real.mul_self_sqrt (le_of_lt hpos)
    simp only [cosine_similarity]
    rw [hnorm, dot_product_self, if_pos hpos]
    exact div_self (ne_of_gt hpos)

theorem cosine_similarity_symm_and_self_witness :
    cosine_similarity [1, 2] [3, 4] = cosine_similarity [3, 4] [1, 2]
      ∧ ((∃ x ∈ ([3, 4] : List ℝ), x ≠ 0) ∧ cosine_similarity [(3 : ℝ), 4] [3, 4] = 1) :=
  ⟨cosine_similarity_symm_and_self.1 [1, 2] [3, 4],
   ⟨3, by simp, by norm_num⟩,
   cosine_similarity_symm_and_self.2 [3, 4] ⟨3, by simp, by norm_num⟩⟩

/-- C1: for a store whose texts and embeddings are parallel lists, the retriever
returns exactly `min k n` documents (so: `k` of them when `k ≤ n`, all `n`
without error when `k > n`), drawn from distinct in-range corpus indices, each
carrying exactly the stored text at its index, and listed in non-increasing
order of cosine similarity between the query embedding and the stored
embedding. -/
theorem retriever_invoke_topk (store : SimpleVectorStore) (k : ℕ) (query : String)
    (h : store.embeddings.length = store.texts.length) :
    ∃ idxs : List ℕ,
      (store.as_retriever k).invoke query
          = idxs.map (fun i => (⟨store.texts.getD i ""⟩ : Document))
      ∧ idxs.length = min k store.texts.length
      ∧ idxs.Nodup
      ∧ (∀ i ∈ idxs, i < store.texts.length)
      ∧ ((idxs.map fun i =>
            (store.embeddings.map fun emb =>
              cosine_similarity (store.embeddings_model.embed_query query) emb).getD i 0).Pairwise
          fun a b => b ≤ a) := by
  classical
  set sims : List ℝ := store.embeddings.map fun emb =>
    cosine_similarity (store.embeddings_model.embed_query query) emb with hsims
  set cmp : ℕ × ℝ → ℕ × ℝ → Bool := fun x y => decide (y.2 ≤ x.2) with hcmp
  set sorted_sims : List (ℕ × ℝ) := sims.enum.mergeSort cmp with hsorted
  refine ⟨(sorted_sims.take k).map Prod.fst, rfl, ?_, ?_, ?_, ?_⟩
  · have hlen : sims.length = store.texts.length := by
      simp [hsims, h]
    simp [hsorted, List.length_take, hlen, Nat.min_comm]
  · have hperm : List.Perm (sorted_sims.map Prod.fst) (sims.enum.map Prod.fst) :=
      (List.mergeSort_perm sims.enum cmp).map Prod.fst
    have hnodup : (sorted_sims.map Prod.fst).Nodup :=
      hperm.symm.nodup (List.nodup_enum_map_fst sims)
    have : (sorted_sims.take k).map Prod.fst = (sorted_sims.map Prod.fst).take k := by
      simp
    rw [this]
    exact (List.take_sublist _ _).nodup hnodup
  · intro i hi
    rcases List.mem_map.1 hi with ⟨p, hp, rfl⟩
    have hp2 : p ∈ sorted_sims := List.mem_of_mem_take hp
    have hp3 : p ∈ sims.enum := (List.mem_mergeSort).1 hp2
    have hlt : p.1 < sims.length := by
      have := List.mem_enum_iff_getElem?.1 hp3
      have := List.getElem?_eq_some.1 this
      exact this.1
    have hlen : sims.length = store.texts.length := by
      simp [hsims, h]
    omega
  · have htrans : ∀ a b c : ℕ × ℝ, cmp a b → cmp b c → cmp a c := by
      intro a b c hab hbc
      simp only [hcmp, decide_eq_true_eq] at hab hbc ⊢
      exact le_trans hbc hab
    have htotal : ∀ a b : ℕ × ℝ, cmp a b || cmp b a := by
      intro a b
      simp only [hcmp, decide_eq_true_eq, Bool.or_eq_true]
      exact (le_total b.2 a.2)
    have hpair : sorted_sims.Pairwise (fun a b => cmp a b = true) :=
      List.sorted_mergeSort htrans htotal sims.enum
    have hpair2 : (sorted_sims.take k).Pairwise (fun a b => cmp a b = true) :=
      hpair.sublist (List.take_sublist _ _)
    have hval : ∀ p ∈ sorted_sims.take k, sims[p.1]?.getD 0 = p.2 := by
      intro p hp
      have hp3 : p ∈ sims.enum := (List.mem_mergeSort).1 (List.mem_of_mem_take hp)
      have := List.mem_enum_iff_getElem?.1 hp3
      simp [this]
    rw [List.map_map, List.pairwise_map]
    refine hpair2.imp_of_mem ?_
    intro a b ha hb hab
    simp only [hcmp, decide_eq_true_eq] at hab
    simp only [Function.comp_apply, List.getD_eq_getElem?_getD]
    rw [hval a ha, hval b hb]
    exact hab

/-- Concrete two-document store used to witness the retriever theorem. -/
def witnessStore : SimpleVectorStore :=
  SimpleVectorStore.init ["a", "b"] ⟨fun ts => ts.map fun _ => [1], fun _ => [1]⟩

theorem retriever_invoke_topk_witness :
    witnessStore.embeddings.length = witnessStore.texts.length
    ∧ ∃ idxs : List ℕ,
      (witnessStore.as_retriever 2).invoke "q"
          = idxs.map (fun i => (⟨witnessStore.texts.getD i ""⟩ : Document))
      ∧ idxs.length = min 2 witnessStore.texts.length
      ∧ idxs.Nodup
      ∧ (∀ i ∈ idxs, i < witnessStore.texts.length)
      ∧ ((idxs.map fun i =>
            (witnessStore.embeddings.map fun emb =>
              cosine_similarity (witnessStore.embeddings_model.embed_query "q") emb).getD i 0).Pairwise
          fun a b => b ≤ a) :=
  ⟨rfl, retriever_invoke_topk witnessStore 2 "q" rfl⟩

/-! ## Provider abstraction (`prompts/llm_interface.py`, `prompts/llm_providers.py`)

Each adapter owns one underlying LangChain chat-model client (`self._llm`).
The client is external to the repository, so its behaviour is abstracted as an
explicit argument of each method: `invoke` behaviour as `List Message → Message`,
`stream` behaviour as the finite list of chunks it yields, and `batch` behaviour
as `List (List Message) → List Message`. -/

/-- LangChain message roles appearing in the sources. -/
inductive Role where
  | system
  | human
  | ai
  | tool
deriving DecidableEq

/-- A LangChain `BaseMessage`: role plus text content. -/
structure Message where
  role : Role
  content : String
deriving DecidableEq

/-- LangChain `HumanMessage(content=...)`. -/
def HumanMessage (content : String) : Message :=
  ⟨Role.human, content⟩

/-- The `Union[str, List[BaseMessage]]` prompt argument of
`invoke` / `invoke_with_metadata` / `stream`. -/
inductive PromptInput where
  | str (s : String)
  | messages (ms : List Message)

/-- The `isinstance(prompt, str)` wrap performed at the top of every provider
method: a bare string becomes `[HumanMessage(content=prompt)]`, a message list
is passed through unchanged. -/
def promptMessages : PromptInput → List Message
  | .str s => [HumanMessage s]
  | .messages ms => ms

/-- The `if chunk.content: yield chunk.content` loop shared by every provider's
`stream` (Python string truthiness: only non-empty contents are yielded). -/
def streamYielded : List Message → List String
  | [] => []
  | chunk :: rest =>
    if chunk.content ≠ "" then chunk.content :: streamYielded rest
    else streamYielded rest

/-- Method `LLMProvider.update_parameters` default implementation in
`llm_interface.py`: `return self` (no override, no copy), for any arguments. -/
def LLMProvider.update_parameters {α : Type} (self : α)
    (temperature top_p : Option ℚ) (max_tokens : Option Int) : α :=
  self

/-! ### OllamaProvider -/

/-- The keyword arguments `OllamaProvider.__init__` passes to `ChatOllama`. -/
structure ChatOllamaKwargs where
  model : String
  base_url : String
  temperature : ℚ
  top_p : ℚ
  num_predict : Option Int
deriving DecidableEq

/-- Class `OllamaProvider`: the stored configuration fields plus the configuration of
the eagerly constructed `ChatOllama` client. -/
structure OllamaProvider where
  model_name : String
  base_url : String
  temperature : ℚ
  top_p : ℚ
  num_predict : Option Int
  llm : ChatOllamaKwargs
deriving DecidableEq

/-- Method `OllamaProvider.__init__`: store every parameter and build the
`ChatOllama` client from all of them. -/
def OllamaProvider.init (model : String) (base_url : String)
    (temperature top_p : ℚ) (num_predict : Option Int) : OllamaProvider :=
  { model_name := model
    base_url := base_url
    temperature := temperature
    top_p := top_p
    num_predict := num_predict
    llm :=
      { model := model
        base_url := base_url
        temperature := temperature
        top_p := top_p
        num_predict := num_predict } }

/-- Method `OllamaProvider.invoke`: wrap a bare string, delegate to `self._llm.invoke`
(abstracted as `llm`), return `response.content`. -/
def OllamaProvider.invoke (llm : List Message → Message) (prompt : PromptInput) : String :=
  (llm (promptMessages prompt)).content

/-- Method `OllamaProvider.stream`: wrap a bare string, iterate the client's chunks
(abstracted as `llm`), yielding each non-empty `chunk.content`. -/
def OllamaProvider.stream (llm : List Message → List Message) (prompt : PromptInput) :
    List String :=
  streamYielded (llm (promptMessages prompt))

/-- Method `OllamaProvider.batch`: wrap each prompt as `[HumanMessage(content=p)]`,
delegate to `self._llm.batch` (abstracted as `llm`), return the contents. -/
def OllamaProvider.batch (llm : List (List Message) → List Message)
    (prompts : List String) : List String :=
  let messages_list := prompts.map fun p => [HumanMessage p]
  let responses := llm messages_list
  responses.map fun r => r.content

/-- Method `OllamaProvider.update_parameters`: rebuild through `__init__`, overriding
exactly the parameters that were passed (`x if x is not None else self.x`) and
carrying `model_name` / `base_url` over; `max_tokens`, when given, becomes
`num_predict`. -/
def OllamaProvider.update_parameters (self : OllamaProvider)
    (temperature top_p : Option ℚ) (max_tokens : Option Int) : OllamaProvider :=
  OllamaProvider.init self.model_name self.base_url
    (match temperature with
      | some t => t
      | none => self.temperature)
    (match top_p with
      | some t => t
      | none => self.top_p)
    (match max_tokens with
      | some m => some m
      | none => self.num_predict)

/-! ### OpenAIProvider -/

/-- The keyword arguments `OpenAIProvider.__init__` passes to `ChatOpenAI`:
`api_key` is added only when not `None`, while `base_url` and `max_tokens` are
added only when truthy (`if base_url:` / `if max_tokens:`), so an empty string
or a zero value is omitted. -/
structure ChatOpenAIKwargs where
  model : String
  temperature : ℚ
  top_p : ℚ
  api_key : Option String
  base_url : Option String
  max_tokens : Option Int
deriving DecidableEq

/-- Class `OpenAIProvider`: stored configuration plus the `ChatOpenAI` kwargs. -/
structure OpenAIProvider where
  model_name : String
  api_key : Option String
  base_url : Option String
  temperature : ℚ
  top_p : ℚ
  max_tokens : Option Int
  llm : ChatOpenAIKwargs
deriving DecidableEq

/-- Method `OpenAIProvider.__init__`. -/
def OpenAIProvider.init (model : String) (api_key base_url : Option String)
    (temperature top_p : ℚ) (max_tokens : Option Int) : OpenAIProvider :=
  { model_name := model
    api_key := api_key
    base_url := base_url
    temperature := temperature
    top_p := top_p
    max_tokens := max_tokens
    llm :=
      { model := model
        temperature := temperature
        top_p := top_p
        api_key := api_key
        base_url :=
          match base_url with
          | some s => if s = "" then none else some s
          | none => none
        max_tokens :=
          match max_tokens with
          | some n => if n = 0 then none else some n
          | none => none } }

/-- Method `OpenAIProvider.invoke` (same body as the Ollama variant). -/
def OpenAIProvider.invoke (llm : List Message → Message) (prompt : PromptInput) : String :=
  (llm (promptMessages prompt)).content

/-- Method `OpenAIProvider.stream` (same body as the Ollama variant). -/
def OpenAIProvider.stream (llm : List Message → List Message) (prompt : PromptInput) :
    List String :=
  streamYielded (llm (promptMessages prompt))

/-- Method `OpenAIProvider.batch` (same body as the Ollama variant). -/
def OpenAIProvider.batch (llm : List (List Message) → List Message)
    (prompts : List String) : List String :=
  let messages_list := prompts.map fun p => [HumanMessage p]
  let responses := llm messages_list
  responses.map fun r => r.content

/-- Method `OpenAIProvider.update_parameters`: rebuild through `__init__`, overriding
exactly the passed parameters and carrying `model_name` / `api_key` /
`base_url` over. -/
def OpenAIProvider.update_parameters (self : OpenAIProvider)
    (temperature top_p : Option ℚ) (max_tokens : Option Int) : OpenAIProvider :=
  OpenAIProvider.init self.model_name self.api_key self.base_url
    (match temperature with
      | some t => t
      | none => self.temperature)
    (match top_p with
      | some t => t
      | none => self.top_p)
    (match max_tokens with
      | some m => some m
      | none => self.max_tokens)

/-! ### GeminiProvider -/

/-- The keyword arguments `GeminiProvider.__init__` passes to
`ChatGoogleGenerativeAI`: `google_api_key` and `max_output_tokens` are added
only when truthy (`if api_key:` / `if max_output_tokens:`). -/
structure ChatGoogleGenerativeAIKwargs where
  model : String
  temperature : ℚ
  top_p : ℚ
  google_api_key : Option String
  max_output_tokens : Option Int
deriving DecidableEq

/-- Class `GeminiProvider`: stored configuration plus the client kwargs. -/
structure GeminiProvider where
  model_name : String
  api_key : Option String
  temperature : ℚ
  top_p : ℚ
  max_output_tokens : Option Int
  llm : ChatGoogleGenerativeAIKwargs
deriving DecidableEq

/-- Method `GeminiProvider.__init__`. -/
def GeminiProvider.init (model : String) (api_key : Option String)
    (temperature top_p : ℚ) (max_output_tokens : Option Int) : GeminiProvider :=
  { model_name := model
    api_key := api_key
    temperature := temperature
    top_p := top_p
    max_output_tokens := max_output_tokens
    llm :=
      { model := model
        temperature := temperature
        top_p := top_p
        google_api_key :=
          match api_key with
          | some s => if s = "" then none else some s
          | none => none
        max_output_tokens :=
          match max_output_tokens with
          | some n => if n = 0 then none else some n
          | none => none } }

/-- Method `GeminiProvider.invoke` (same body as the Ollama variant). -/
def GeminiProvider.invoke (llm : List Message → Message) (prompt : PromptInput) : String :=
  (llm (promptMessages prompt)).content

/-- Method `GeminiProvider.stream` (same body as the Ollama variant). -/
def GeminiProvider.stream (llm : List Message → List Message) (prompt : PromptInput) :
    List String :=
  streamYielded (llm (promptMessages prompt))

/-- Method `GeminiProvider.batch` (same body as the Ollama variant). -/
def GeminiProvider.batch (llm : List (List Message) → List Message)
    (prompts : List String) : List String :=
  let messages_list := prompts.map fun p => [HumanMessage p]
  let responses := llm messages_list
  responses.map fun r => r.content

/-- Method `GeminiProvider.update_parameters`: rebuild through `__init__`, overriding
exactly the passed parameters and carrying `model_name` / `api_key` over;
`max_tokens`, when given, becomes `max_output_tokens`. -/
def GeminiProvider.update_parameters (self : GeminiProvider)
    (temperature top_p : Option ℚ) (max_tokens : Option Int) : GeminiProvider :=
  GeminiProvider.init self.model_name self.api_key
    (match temperature with
      | some t => t
      | none => self.temperature)
    (match top_p with
      | some t => t
      | none => self.top_p)
    (match max_tokens with
      | some m => some m
      | none => self.max_output_tokens)

/-! ### Provider theorems -/

theorem streamYielded_eq_filter (l : List Message) :
    streamYielded l = ((l.map fun m => m.content).filter fun s => s ≠ "") := by
  induction l with
  | nil => rfl
  | cons c rest ih => by_cases h : c.content = "" <;> simp [streamYielded, h, ih]

/-- C2: for each provider variant, `update_parameters` builds a new instance in
which every explicitly supplied sampling parameter equals the supplied value,
every omitted one is carried over from the receiver, and the non-sampling
configuration (model name, endpoint / base URL, API key where applicable) is
carried over unchanged; in particular, instantiating all three options at
`none` (no arguments) yields a configuration identical to the receiver's. The
receiver itself is a value, so it is unchanged by construction. -/
theorem update_parameters_contract :
    (∀ (p : OllamaProvider) (t tp : Option ℚ) (mt : Option Int),
        ((p.update_parameters t tp mt).model_name = p.model_name
          ∧ (p.update_parameters t tp mt).base_url = p.base_url)
      ∧ (p.update_parameters t tp mt).temperature = t.getD p.temperature
      ∧ (p.update_parameters t tp mt).top_p = tp.getD p.top_p
      ∧ (p.update_parameters t tp mt).num_predict = mt.or p.num_predict)
    ∧ (∀ (p : OpenAIProvider) (t tp : Option ℚ) (mt : Option Int),
        ((p.update_parameters t tp mt).model_name = p.model_name
          ∧ (p.update_parameters t tp mt).api_key = p.api_key
          ∧ (p.update_parameters t tp mt).base_url = p.base_url)
      ∧ (p.update_parameters t tp mt).temperature = t.getD p.temperature
      ∧ (p.update_parameters t tp mt).top_p = tp.getD p.top_p
      ∧ (p.update_parameters t tp mt).max_tokens = mt.or p.max_tokens)
    ∧ (∀ (p : GeminiProvider) (t tp : Option ℚ) (mt : Option Int),
        ((p.update_parameters t tp mt).model_name = p.model_name
          ∧ (p.update_parameters t tp mt).api_key = p.api_key)
      ∧ (p.update_parameters t tp mt).temperature = t.getD p.temperature
      ∧ (p.update_parameters t tp mt).top_p = tp.getD p.top_p
      ∧ (p.update_parameters t tp mt).max_output_tokens = mt.or p.max_output_tokens) := by
  refine ⟨fun p t tp mt => ⟨⟨rfl, rfl⟩, ?_, ?_, ?_⟩,
          fun p t tp mt => ⟨⟨rfl, rfl, rfl⟩, ?_, ?_, ?_⟩,
          fun p t tp mt => ⟨⟨rfl, rfl⟩, ?_, ?_, ?_⟩⟩ <;>
    first
      | (cases t <;> rfl)
      | (cases tp <;> rfl)
      | (cases mt <;> rfl)

/-- C5: for every provider variant and every string `s`, invoking with the bare
string `s` issues exactly the same request to the underlying client as invoking
with the one-element list `[HumanMessage s]` — the wrapped message lists are
equal — and therefore returns the same result for every client behaviour. -/
theorem invoke_string_wrapping (llm : List Message → Message) (s : String) :
    promptMessages (.str s) = promptMessages (.messages [HumanMessage s])
    ∧ OllamaProvider.invoke llm (.str s)
        = OllamaProvider.invoke llm (.messages [HumanMessage s])
    ∧ OpenAIProvider.invoke llm (.str s)
        = OpenAIProvider.invoke llm (.messages [HumanMessage s])
    ∧ GeminiProvider.invoke llm (.str s)
        = GeminiProvider.invoke llm (.messages [HumanMessage s]) :=
  ⟨rfl, rfl, rfl, rfl⟩

/-- C6: for every provider variant and every ordered prompt list, `batch` sends
the client one single-human-message conversation per prompt, in input order;
assuming the client's batch call returns one response per input (it preserves
length), the result has exactly one response text per prompt and its `i`-th
element is the content of the client's `i`-th response. -/
theorem batch_wraps_and_preserves_order (llm : List (List Message) → List Message)
    (prompts : List String)
    (hlen : ∀ xss, (llm xss).length = xss.length) :
    ((prompts.map fun p => [HumanMessage p]).length = prompts.length
      ∧ ∀ i : ℕ, i < prompts.length →
          (prompts.map fun p => [HumanMessage p])[i]?
            = some [HumanMessage (prompts.getD i "")])
    ∧ (OllamaProvider.batch llm prompts).length = prompts.length
    ∧ (∀ i : ℕ,
        (OllamaProvider.batch llm prompts)[i]?
          = ((llm (prompts.map fun p => [HumanMessage p]))[i]?).map fun r => r.content)
    ∧ OpenAIProvider.batch llm prompts = OllamaProvider.batch llm prompts
    ∧ GeminiProvider.batch llm prompts = OllamaProvider.batch llm prompts := by
  refine ⟨⟨by simp, ?_⟩, ?_, ?_, rfl, rfl⟩
  · intro i hi
    simp [List.getElem?_eq_getElem, hi]
  · simp [OllamaProvider.batch, hlen]
  · intro i
    simp [OllamaProvider.batch]

/-- Stub batch client used to witness the batch theorem: one response per
input conversation, echoing its concatenated contents. -/
def witnessBatchClient : List (List Message) → List Message :=
  fun xss => xss.map fun ms => ⟨Role.ai, String.join (ms.map fun m => m.content)⟩

theorem batch_wraps_and_preserves_order_witness :
    (∀ xss, (witnessBatchClient xss).length = xss.length)
    ∧ (OllamaProvider.batch witnessBatchClient ["a", "b"]).length
        = (["a", "b"] : List String).length :=
  ⟨fun xss => by simp [witnessBatchClient],
   (batch_wraps_and_preserves_order witnessBatchClient ["a", "b"]
      (fun xss => by simp [witnessBatchClient])).2.1⟩

/-- C8: for every provider variant, `stream` yields exactly the non-empty
contents of the chunks produced by the underlying client's stream, in arrival
order, dropping empty fragments; over a stub backend yielding chunks with
contents `"He"` and `"llo"` it yields exactly those two fragments, whose
concatenation is `"Hello"`. -/
theorem stream_filters_empty_fragments :
    (∀ (llm : List Message → List Message) (prompt : PromptInput),
        OllamaProvider.stream llm prompt
            = (((llm (promptMessages prompt)).map fun m => m.content).filter fun s => s ≠ "")
        ∧ OpenAIProvider.stream llm prompt
            = (((llm (promptMessages prompt)).map fun m => m.content).filter fun s => s ≠ "")
        ∧ GeminiProvider.stream llm prompt
            = (((llm (promptMessages prompt)).map fun m => m.content).filter fun s => s ≠ ""))
    ∧ OllamaProvider.stream (fun _ => [⟨Role.ai, "He"⟩, ⟨Role.ai, "llo"⟩]) (.str "Hi")
        = ["He", "llo"]
    ∧ String.join
        (OllamaProvider.stream (fun _ => [⟨Role.ai, "He"⟩, ⟨Role.ai, "llo"⟩]) (.str "Hi"))
        = "Hello" := by
  refine ⟨fun llm prompt => ⟨?_, ?_, ?_⟩, by decide, by decide⟩ <;>
    exact streamYielded_eq_filter _

/-- C10: the abstract base contract's default `update_parameters` returns the
receiver itself unchanged, for any arguments; a subclass that does not override
it therefore hands back the original instance instead of a rebuilt one. -/
theorem update_parameters_default_returns_self {α : Type} (self : α)
    (temperature top_p : Option ℚ) (max_tokens : Option Int) :
    LLMProvider.update_parameters self temperature top_p max_tokens = self :=
  rfl

/-! ## Configuration resolver (`prompts/llm_config.py`)

`os.getenv` is abstracted as a function `env : String → Option String`.
The provider selector is modelled as a plain string; `create_provider`'s
`if/elif/else` chain returns `Except.error` on the final `raise ValueError`. -/

/-- Record `OllamaConfig`. -/
structure OllamaConfig where
  model : String
  base_url : String
  temperature : ℚ
  top_p : ℚ
  num_predict : Option Int
deriving DecidableEq

/-- Record `OpenAIConfig`. -/
structure OpenAIConfig where
  model : String
  api_key : Option String
  base_url : Option String
  temperature : ℚ
  top_p : ℚ
  max_tokens : Option Int
deriving DecidableEq

/-- Record `GeminiConfig`. -/
structure GeminiConfig where
  model : String
  api_key : Option String
  temperature : ℚ
  top_p : ℚ
  max_output_tokens : Option Int
deriving DecidableEq

/-- Settings record `LLMConfig` (flat per-provider fields plus the provider
selector). -/
structure LLMConfig where
  provider : String
  ollama_model : String
  ollama_base_url : String
  ollama_temperature : ℚ
  ollama_top_p : ℚ
  ollama_num_predict : Option Int
  openai_model : String
  openai_api_key : Option String
  openai_base_url : Option String
  openai_temperature : ℚ
  openai_top_p : ℚ
  openai_max_tokens : Option Int
  gemini_model : String
  gemini_api_key : Option String
  gemini_temperature : ℚ
  gemini_top_p : ℚ
  gemini_max_output_tokens : Option Int
deriving DecidableEq

/-- The `Field(default=...)` values declared on `LLMConfig`. -/
def defaultLLMConfig : LLMConfig :=
  { provider := "ollama"
    ollama_model := "deepseek-r1-32b:latest"
    ollama_base_url := "http://localhost:11434"
    ollama_temperature := 7 / 10
    ollama_top_p := 9 / 10
    ollama_num_predict := none
    openai_model := "gpt-3.5-turbo"
    openai_api_key := none
    openai_base_url := none
    openai_temperature := 7 / 10
    openai_top_p := 1
    openai_max_tokens := none
    gemini_model := "gemini-2.5-flash"
    gemini_api_key := none
    gemini_temperature := 7 / 10
    gemini_top_p := 95 / 100
    gemini_max_output_tokens := none }

/-- Python `a or b` on `Optional[str]` operands: `a` when `a` is truthy (not
`None` and non-empty), otherwise `b` verbatim. -/
def pyOrStr (a b : Option String) : Option String :=
  match a with
  | some s => if s = "" then b else some s
  | none => b

/-- Method `LLMConfig.get_ollama_config`. -/
def LLMConfig.get_ollama_config (self : LLMConfig) : OllamaConfig :=
  { model := self.ollama_model
    base_url := self.ollama_base_url
    temperature := self.ollama_temperature
    top_p := self.ollama_top_p
    num_predict := self.ollama_num_predict }

/-- Method `LLMConfig.get_openai_config`:
`api_key = self.openai_api_key or os.getenv("OPENAI_API_KEY")`. -/
def LLMConfig.get_openai_config (self : LLMConfig) (env : String → Option String) :
    OpenAIConfig :=
  let api_key := pyOrStr self.openai_api_key (env "OPENAI_API_KEY")
  { model := self.openai_model
    api_key := api_key
    base_url := self.openai_base_url
    temperature := self.openai_temperature
    top_p := self.openai_top_p
    max_tokens := self.openai_max_tokens }

/-- Method `LLMConfig.get_gemini_config`:
`api_key = self.gemini_api_key or os.getenv("GOOGLE_API_KEY")`. -/
def LLMConfig.get_gemini_config (self : LLMConfig) (env : String → Option String) :
    GeminiConfig :=
  let api_key := pyOrStr self.gemini_api_key (env "GOOGLE_API_KEY")
  { model := self.gemini_model
    api_key := api_key
    temperature := self.gemini_temperature
    top_p := self.gemini_top_p
    max_output_tokens := self.gemini_max_output_tokens }

/-- The adapter returned by `create_provider`: one of the three variants. -/
inductive ProviderAdapter where
  | ollama (p : OllamaProvider)
  | openai (p : OpenAIProvider)
  | gemini (p : GeminiProvider)
deriving DecidableEq

/-- Method `LLMConfig.create_provider`: dispatch on the selector, build the selected
per-provider config and construct the corresponding adapter through its
`__init__`; any other selector value hits the final
`raise ValueError(f"Unknown provider: ...")`. -/
def LLMConfig.create_provider (self : LLMConfig) (env : String → Option String) :
    Except String ProviderAdapter :=
  if self.provider = "ollama" then
    let config := self.get_ollama_config
    .ok (.ollama (OllamaProvider.init config.model config.base_url
      config.temperature config.top_p config.num_predict))
  else if self.provider = "openai" then
    let config := self.get_openai_config env
    .ok (.openai (OpenAIProvider.init config.model config.api_key config.base_url
      config.temperature config.top_p config.max_tokens))
  else if self.provider = "gemini" then
    let config := self.get_gemini_config env
    .ok (.gemini (GeminiProvider.init config.model config.api_key
      config.temperature config.top_p config.max_output_tokens))
  else
    .error ("Unknown provider: " ++ self.provider)

/-! ### Configuration theorems -/

/-- C4: `create_provider` with a selector other than the three fixed values
returns the configuration error immediately — no adapter value is constructed
(the result is not `.ok` of any variant) — while each of the three valid
selectors yields the corresponding adapter variant. -/
theorem create_provider_dispatch (cfg : LLMConfig) (env : String → Option String) :
    (cfg.provider ∉ (["ollama", "openai", "gemini"] : List String) →
        cfg.create_provider env = .error ("Unknown provider: " ++ cfg.provider))
    ∧ (cfg.provider = "ollama" → ∃ p, cfg.create_provider env = .ok (.ollama p))
    ∧ (cfg.provider = "openai" → ∃ p, cfg.create_provider env = .ok (.openai p))
    ∧ (cfg.provider = "gemini" → ∃ p, cfg.create_provider env = .ok (.gemini p)) := by
  refine ⟨?_, ?_, ?_, ?_⟩
  · intro hmem
    simp only [List.mem_cons, List.not_mem_nil, or_false, not_or] at hmem
    obtain ⟨h1, h2, h3⟩ := hmem
    simp [LLMConfig.create_provider, h1, h2, h3]
  · intro h
    have hres : cfg.create_provider env
        = .ok (.ollama (OllamaProvider.init cfg.get_ollama_config.model
            cfg.get_ollama_config.base_url cfg.get_ollama_config.temperature
            cfg.get_ollama_config.top_p cfg.get_ollama_config.num_predict)) := by
      simp [LLMConfig.create_provider, h]
    exact ⟨_, hres⟩
  · intro h
    have h1 : cfg.provider ≠ "ollama" := by rw [h]; decide
    have hres : cfg.create_provider env
        = .ok (.openai (OpenAIProvider.init (cfg.get_openai_config env).model
            ((cfg.get_openai_config env)).api_key ((cfg.get_openai_config env)).base_url
            ((cfg.get_openai_config env)).temperature ((cfg.get_openai_config env)).top_p
            ((cfg.get_openai_config env)).max_tokens)) := by
      simp [LLMConfig.create_provider, h, h1]
    exact ⟨_, hres⟩
  · intro h
    have h1 : cfg.provider ≠ "ollama" := by rw [h]; decide
    have h2 : cfg.provider ≠ "openai" := by rw [h]; decide
    have hres : cfg.create_provider env
        = .ok (.gemini (GeminiProvider.init (cfg.get_gemini_config env).model
            ((cfg.get_gemini_config env)).api_key ((cfg.get_gemini_config env)).temperature
            ((cfg.get_gemini_config env)).top_p
            ((cfg.get_gemini_config env)).max_output_tokens)) := by
      simp [LLMConfig.create_provider, h, h1, h2]
    exact ⟨_, hres⟩

theorem create_provider_dispatch_witness :
    (({ defaultLLMConfig with provider := "unknown_value" } : LLMConfig).provider
        ∉ (["ollama", "openai", "gemini"] : List String))
    ∧ ({ defaultLLMConfig with provider := "unknown_value" } : LLMConfig).create_provider
        (fun _ => none)
      = .error ("Unknown provider: "
          ++ ({ defaultLLMConfig with provider := "unknown_value" } : LLMConfig).provider) :=
  ⟨by decide,
   (create_provider_dispatch { defaultLLMConfig with provider := "unknown_value" }
      (fun _ => none)).1 (by decide)⟩

/-- C9 counterexample: with an explicit (present, `Some`) but empty-string
`openai_api_key` and the environment variable set, the resolver does not return
the explicit configuration value — Python `or` treats the empty string as
falsy — so the claim's "explicit configuration value when present" precedence
fails at this input. -/
theorem api_key_precedence_counterexample :
    (({ defaultLLMConfig with openai_api_key := some "" } : LLMConfig).openai_api_key).isSome
      = true
    ∧ (({ defaultLLMConfig with openai_api_key := some "" } : LLMConfig).get_openai_config
          (fun n => if n = "OPENAI_API_KEY" then some "from-env" else none)).api_key
        = some "from-env"
    ∧ (({ defaultLLMConfig with openai_api_key := some "" } : LLMConfig).get_openai_config
          (fun n => if n = "OPENAI_API_KEY" then some "from-env" else none)).api_key
        ≠ ({ defaultLLMConfig with openai_api_key := some "" } : LLMConfig).openai_api_key := by
  refine ⟨rfl, rfl, ?_⟩
  decide

/-- C9 (amended): for both hosted-API providers the resolved key follows the
precedence (explicit config value when present AND non-empty) → (environment
variable `OPENAI_API_KEY` / `GOOGLE_API_KEY`, whatever it holds, including
absent) — an empty-string explicit value behaves as unset under Python `or`. -/
theorem api_key_precedence (cfg : LLMConfig) (env : String → Option String) :
    (∀ s : String, cfg.openai_api_key = some s → s ≠ "" →
        (cfg.get_openai_config env).api_key = some s)
    ∧ (cfg.openai_api_key = none ∨ cfg.openai_api_key = some "" →
        (cfg.get_openai_config env).api_key = env "OPENAI_API_KEY")
    ∧ (∀ s : String, cfg.gemini_api_key = some s → s ≠ "" →
        (cfg.get_gemini_config env).api_key = some s)
    ∧ (cfg.gemini_api_key = none ∨ cfg.gemini_api_key = some "" →
        (cfg.get_gemini_config env).api_key = env "GOOGLE_API_KEY") := by
  refine ⟨?_, ?_, ?_, ?_⟩
  · intro s hs hne
    simp [LLMConfig.get_openai_config, pyOrStr, hs, hne]
  · rintro (hs | hs) <;> simp [LLMConfig.get_openai_config, pyOrStr, hs]
  · intro s hs hne
    simp [LLMConfig.get_gemini_config, pyOrStr, hs, hne]
  · rintro (hs | hs) <;> simp [LLMConfig.get_gemini_config, pyOrStr, hs]

theorem api_key_precedence_witness :
    (defaultLLMConfig.openai_api_key = none ∨ defaultLLMConfig.openai_api_key = some "")
    ∧ (defaultLLMConfig.get_openai_config
          (fun n => if n = "OPENAI_API_KEY" then some "sk-test" else none)).api_key
        = (fun n => if n = "OPENAI_API_KEY" then some "sk-test" else none) "OPENAI_API_KEY" :=
  ⟨Or.inl rfl,
   (api_key_precedence defaultLLMConfig
      (fun n => if n = "OPENAI_API_KEY" then some "sk-test" else none)).2.1 (Or.inl rfl)⟩

end PromptDemo
